import Mathlib

/-!
Verification development for the arifian.ai-admin front end.

This file gives a shallow embedding, in Lean 4, of the client-side logic of
the admin single-page application: the retrieval test harness
(`TestRetrieval`), the two chat clients (`GroqChat` and `Chat`), the chat
transcript persistence, and the confessions management panel.  Network calls
are modelled by explicit oracle parameters describing the outcome the browser
`fetch` would have produced; JavaScript numbers are modelled by `ℚ`;
`Date` values are modelled by opaque strings or naturals.  Each handler is a
pure function from the component state and the fetch outcome to the new state
together with the externally visible effects (issued requests, toasts).
-/

set_option autoImplicit false

namespace AdminSpec

/-! ## Retrieval test harness (`TestRetrieval`) -/

/-- Status of a retrieval test result, mirroring the
`'success' | 'error' | 'pending'` union in the source. -/
inductive TestStatus where
  | success
  | error
  | pending
  deriving DecidableEq, Repr

instance : BEq TestStatus := ⟨fun a b => decide (a = b)⟩

/-- One retrieval hit, mirroring the `RetrievalResult` interface. -/
structure RetrievalResult where
  title : String
  score : ℚ
  content_preview : String
  deriving DecidableEq, Repr

/-- Retrieval configuration echoed by the backend, mirroring the nested
`config` object of `TestResult`. -/
structure TestConfig where
  limit : Nat
  min_similarity : ℚ
  deriving DecidableEq, Repr

/-- One test outcome, mirroring the `TestResult` interface.  The `timestamp`
field (a JavaScript `Date`) is modelled as an opaque string. -/
structure TestResult where
  query : String
  results_count : Nat
  results : List RetrievalResult
  duration_seconds : ℚ
  config : TestConfig
  status : TestStatus
  errorMsg : Option String
  timestamp : String
  deriving DecidableEq, Repr

/-- A canned test scenario, mirroring the `TestScenario` interface. -/
structure TestScenario where
  id : String
  query : String
  expectedMatch : Option String
  deriving DecidableEq, Repr

/-- Successful body of `GET /chat/test-retrieval`, as consumed by
`runSingleTest` after `response.json()`. -/
structure RetrievalData where
  results_count : Nat
  results : List RetrievalResult
  duration_seconds : ℚ
  config : TestConfig
  deriving DecidableEq, Repr

/-- Outcome of one `fetch` of the test-retrieval endpoint, as observed by
`runSingleTest`: the promise rejects, the response status is not 2xx
(`!response.ok`), `response.json()` throws, or a parsed body is returned. -/
inductive RetrievalFetchOutcome where
  | reject (msg : String)
  | httpError (status : Nat)
  | parseError (msg : String)
  | ok (data : RetrievalData)
  deriving DecidableEq, Repr

/-- Error-branch result built in the `catch` block of `runSingleTest`:
status `'error'`, zero count, empty hit list, the client-measured elapsed
time, and the hard-coded default config `{limit: 5, min_similarity: 0.25}`. -/
def errorTestResult (query msg : String) (elapsed : ℚ) (now : String) :
    TestResult :=
  { query := query
    results_count := 0
    results := []
    duration_seconds := elapsed
    config := { limit := 5, min_similarity := 25 / 100 }
    status := TestStatus.error
    errorMsg := some msg
    timestamp := now }

/-- Embedding of `runSingleTest`.  `elapsed` is the client-side measurement
`(Date.now() - startTime) / 1000` used in the catch branch; `now` stands for
`new Date()`.  Every `fetch`/`json` failure is funnelled into the single
`catch` block of the source, so the function is total. -/
def runSingleTest (query : String) (outcome : RetrievalFetchOutcome)
    (elapsed : ℚ) (now : String) : TestResult :=
  match outcome with
  | RetrievalFetchOutcome.ok data =>
      { query := query
        results_count := data.results_count
        results := data.results
        duration_seconds := data.duration_seconds
        config := data.config
        status := TestStatus.success
        errorMsg := none
        timestamp := now }
  | RetrievalFetchOutcome.reject msg => errorTestResult query msg elapsed now
  | RetrievalFetchOutcome.httpError status =>
      errorTestResult query ("HTTP " ++ toString status) elapsed now
  | RetrievalFetchOutcome.parseError msg => errorTestResult query msg elapsed now

/-- The results map of the harness, a JavaScript `Map<string, TestResult>`
modelled as an insertion-ordered association list with unique keys. -/
abbrev ResultsMap := List (String × TestResult)

/-- JavaScript `Map.set`: replace the value in place when the key is present,
otherwise append the new binding at the end. -/
def mapSet (m : ResultsMap) (k : String) (v : TestResult) : ResultsMap :=
  if m.any (fun p => p.1 = k) then
    m.map (fun p => if p.1 = k then (k, v) else p)
  else
    m ++ [(k, v)]

/-- One step of the `handleRunAll` trace: the query of the request issued at
this position and the progress value stored right after it completed. -/
structure RunStep where
  query : String
  progress : ℚ
  deriving DecidableEq, Repr

/-- Recursive core of `handleRunAll`: walk the scenario list in order, run
each scenario's query (the oracle is indexed by call position, so the i-th
request can only be answered once the previous ones completed), store the
result under the scenario id, and record the progress update
`((i + 1) / scenarios.length) * 100`. -/
def runAllFrom (oracle : Nat → RetrievalFetchOutcome) (elapsed : Nat → ℚ)
    (now : String) (total : Nat) :
    List TestScenario → Nat → ResultsMap → ResultsMap × List RunStep
  | [], _, acc => (acc, [])
  | s :: rest, i, acc =>
      let r := runSingleTest s.query (oracle i) (elapsed i) now
      let acc' := mapSet acc s.id r
      let next := runAllFrom oracle elapsed now total rest (i + 1) acc'
      (next.1, { query := s.query, progress := ((i + 1 : ℚ) / total) * 100 } :: next.2)

/-- Embedding of `handleRunAll`: starts from a fresh empty map and progress 0
and processes the scenarios strictly sequentially, returning the final map
and the ordered trace of issued requests with the progress value set after
each one. -/
def handleRunAll (scenarios : List TestScenario)
    (oracle : Nat → RetrievalFetchOutcome) (elapsed : Nat → ℚ)
    (now : String) : ResultsMap × List RunStep :=
  runAllFrom oracle elapsed now scenarios.length scenarios 0 []

/-- Derived list of completed tests: every stored result whose status is not
`'pending'` (mirrors the `completedTests` binding). -/
def completedTests (results : ResultsMap) : List TestResult :=
  (results.map Prod.snd).filter (fun r => r.status != TestStatus.pending)

/-- Derived list of successful tests: completed, status `'success'` and a
positive result count (mirrors the `successfulTests` binding). -/
def successfulTests (results : ResultsMap) : List TestResult :=
  (completedTests results).filter
    (fun r => r.status == TestStatus.success && decide (0 < r.results_count))

/-- Derived list of failed tests: completed with status `'error'` or a zero
result count (mirrors the `failedTests` binding). -/
def failedTests (results : ResultsMap) : List TestResult :=
  (completedTests results).filter
    (fun r => r.status == TestStatus.error || decide (r.results_count = 0))

/-- The displayed average duration: mean of `duration_seconds` over the
completed tests, `0` when there are none (mirrors the `avgDuration`
binding). -/
def avgDuration (results : ResultsMap) : ℚ :=
  let c := completedTests results
  if 0 < c.length then (c.map (fun r => r.duration_seconds)).sum / c.length
  else 0

/-- The score JavaScript reads from a result via `r.results[0]?.score || 0`. -/
def topScore (r : TestResult) : ℚ :=
  match r.results with
  | [] => 0
  | h :: _ => h.score

/-- The displayed average top score: mean of the first hit's score over the
successful tests, `0` when there are none (mirrors the `avgScore` binding). -/
def avgScore (results : ResultsMap) : ℚ :=
  let s := successfulTests results
  if 0 < s.length then (s.map topScore).sum / s.length else 0

/-! ## Chat clients (`GroqChat` and `Chat`) -/

/-- Role of a transcript message (`'user' | 'assistant'` in both chat
implementations). -/
inductive SpeakerType where
  | user
  | assistant
  deriving DecidableEq, Repr

instance : BEq SpeakerType := ⟨fun a b => decide (a = b)⟩

/-- File reference of a GroqChat source document (`file_info` in the
`SourceDoc` interface). -/
structure GroqFileInfo where
  filename : String
  cloudinary_url : Option String
  deriving DecidableEq, Repr

/-- Cited source document of the GroqChat client (`SourceDoc`). -/
structure SourceDoc where
  sourceId : String
  title : String
  content : String
  similarity_score : ℚ
  file_info : Option GroqFileInfo
  deriving DecidableEq, Repr

/-- Transcript item of the GroqChat client (`Message` in the GroqChat file).
The `Date` timestamp is modelled as a natural number (milliseconds). -/
structure GMessage where
  role : SpeakerType
  content : String
  sources : Option (List SourceDoc)
  duration : Option ℚ
  apiDuration : Option ℚ
  timestamp : Nat
  deriving DecidableEq, Repr

/-- One item of the `history` array in the body of `POST /chat`.  The wire
format is a JSON object holding a `user` key, an `assistant` key, or both;
an absent key is `none`. -/
structure HistoryEntry where
  user : Option String
  assistant : Option String
  deriving DecidableEq, Repr

/-- Body of a `POST /chat` request, as both chat clients build it. -/
structure ChatRequest where
  message : String
  history : List HistoryEntry
  deriving DecidableEq, Repr

/-- Parsed response body of `POST /chat` as the GroqChat client reads it:
the `message` field is consulted on a non-2xx status, the remaining fields
on success. -/
structure GroqBody where
  message : Option String
  response : String
  sources : List SourceDoc
  duration_seconds : ℚ
  api_duration_seconds : ℚ
  deriving DecidableEq, Repr

/-- Outcome of one `fetch` of the chat endpoint: either the promise rejects
(also covering a later `response.json()` throw), or a response with an
`ok` flag, a status code, and a parsed body arrives. -/
inductive ChatFetchOutcome (β : Type) where
  | reject (msg : String)
  | response (ok : Bool) (status : Nat) (body : β)
  deriving DecidableEq, Repr

/-- Characters dropped from both ends, mirroring JavaScript
`String.prototype.trim`.  Defined structurally over the character list so
that it computes by kernel reduction (Lean's own `String.trim` is defined
through substring loops that do not). -/
def trimChars (l : List Char) : List Char :=
  ((l.dropWhile Char.isWhitespace).reverse.dropWhile Char.isWhitespace).reverse

/-- JavaScript `s.trim()`. -/
def jsTrim (s : String) : String :=
  String.mk (trimChars s.data)

/-- JavaScript `a || b` on an optional string: the fallback is used when the
field is absent or the empty string (both falsy). -/
def jsStringOr (s : Option String) (fallback : String) : String :=
  match s with
  | some v => if v = "" then fallback else v
  | none => fallback

/-- JavaScript truthiness of an optional string field. -/
def jsTruthy (s : Option String) : Bool :=
  match s with
  | some v => decide (v ≠ "")
  | none => false

/-- State of the GroqChat component relevant to sending: the transcript, the
input box, and the single-flight flag. -/
structure GroqState where
  messages : List GMessage
  input : String
  isLoading : Bool
  deriving DecidableEq, Repr

/-- Result of one invocation of `GroqChat.sendMessage`: the new state, the
request issued (if any), and the error toast shown (if any). -/
structure GroqStep where
  state : GroqState
  request : Option ChatRequest
  toastError : Option String
  deriving DecidableEq, Repr

/-- History serialization of the GroqChat client: each prior message becomes
one single-keyed object `{user: content}` or `{assistant: content}`
(`messages.map(msg => ({[msg.role]: msg.content}))`). -/
def groqHistoryItem (m : GMessage) : HistoryEntry :=
  match m.role with
  | SpeakerType.user => { user := some m.content, assistant := none }
  | SpeakerType.assistant => { user := none, assistant := some m.content }

/-- Embedding of `GroqChat.sendMessage`.  The guard returns immediately on a
blank input or while a request is in flight.  Otherwise the trimmed input is
appended as a user message, the history is built from the pre-append
transcript, and one request is issued; on success an assistant message is
appended, on any failure the catch block shows a toast and removes the
just-added user message (`prev.slice(0, -1)`). -/
def sendMessage (st : GroqState) (now : Nat)
    (outcome : ChatFetchOutcome GroqBody) : GroqStep :=
  if jsTrim st.input = "" ∨ st.isLoading then
    { state := st, request := none, toastError := none }
  else
    let userMessage : GMessage :=
      { role := SpeakerType.user, content := jsTrim st.input, sources := none
        duration := none, apiDuration := none, timestamp := now }
    let appended := st.messages ++ [userMessage]
    let req : ChatRequest :=
      { message := userMessage.content
        history := st.messages.map groqHistoryItem }
    match outcome with
    | ChatFetchOutcome.reject msg =>
        { state := { messages := appended.dropLast, input := "", isLoading := false }
          request := some req
          toastError := some ("Failed to send message: " ++ msg) }
    | ChatFetchOutcome.response ok status body =>
        if ok then
          { state :=
              { messages := appended ++
                  [{ role := SpeakerType.assistant, content := body.response
                     sources := some body.sources
                     duration := some body.duration_seconds
                     apiDuration := some body.api_duration_seconds
                     timestamp := now }]
                input := "", isLoading := false }
            request := some req
            toastError := none }
        else
          { state := { messages := appended.dropLast, input := "", isLoading := false }
            request := some req
            toastError := some ("Failed to send message: " ++
              jsStringOr body.message ("HTTP " ++ toString status)) }

/-- Modelled from the spec: file reference carried by a `ChatSource` of the
`Chat` client.  The defining file `src/types/knowledge.ts` is not part of
the sources; the fields are the ones the component reads
(`filename`, `file_type`). -/
structure ChatFileInfo where
  filename : Option String
  file_type : Option String
  deriving DecidableEq, Repr

/-- Modelled from the spec: cited source of the `Chat` client
(`ChatSource` from the missing `types/knowledge.ts`): id, title, content,
similarity score, and an optional file reference. -/
structure ChatSource where
  title : String
  content : String
  source : String
  similarity_score : Option ℚ
  file_info : Option ChatFileInfo
  deriving DecidableEq, Repr

/-- Transcript item of the `Chat` client (`Message` in the Chat file). -/
structure CMessage where
  id : String
  type : SpeakerType
  content : String
  timestamp : Nat
  sources : Option (List ChatSource)
  deriving DecidableEq, Repr

/-- Error details object of the `/chat` error envelope (`details.step`). -/
structure ErrorDetails where
  step : Option String
  deriving DecidableEq, Repr

/-- Parsed response body of `POST /chat` as the `Chat` client reads it:
an optional error envelope (`error`, `error_type`, `message`, `details`)
checked first, then the success payload. -/
structure ChatBody where
  error : Option String
  error_type : Option String
  message : Option String
  details : Option ErrorDetails
  response : String
  sources : Option (List ChatSource)
  deriving DecidableEq, Repr

/-- State of the `Chat` component relevant to submitting: input box,
transcript, single-flight flag, error banner, and the sources panel. -/
structure ChatState where
  message : String
  messages : List CMessage
  isLoading : Bool
  error : Option String
  sources : List ChatSource
  deriving DecidableEq, Repr

/-- Result of one invocation of `Chat.handleSubmit`: the new state and the
request issued (if any). -/
structure ChatStep where
  state : ChatState
  request : Option ChatRequest
  deriving DecidableEq, Repr

/-- History serialization of the `Chat` client: walk the prior transcript
with stride 2 and emit a `{user, assistant}` pair whenever the item at the
even offset is a user turn and the next item is an assistant turn. -/
def chatHistory : List CMessage → List HistoryEntry
  | u :: a :: rest =>
      (if u.type == SpeakerType.user && a.type == SpeakerType.assistant then
        [{ user := some u.content, assistant := some a.content }]
      else []) ++ chatHistory rest
  | _ => []

/-- Error banner text built from the `/chat` error envelope:
a bracketed `error_type` (defaulting to `ERROR`), the `message` field, and
an optional `details.step` suffix. -/
def envelopeMessage (body : ChatBody) : String :=
  "[" ++ jsStringOr body.error_type "ERROR" ++ "] " ++
    (match body.message with
     | some m => m
     | none => "undefined") ++
    (match body.details with
     | some d => "\n\nStep: " ++ jsStringOr d.step "unknown"
     | none => "")

/-- Embedding of `Chat.handleSubmit`.  The guard returns immediately on a
blank input or while a request is in flight.  Otherwise the trimmed input is
appended as a user message, the history pairs are built from the pre-append
transcript, and one request is issued.  The body's error envelope is checked
before the HTTP status; on success an assistant message is appended and the
sources panel updated; on any failure the catch block records the error text
and leaves the transcript as it is (no rollback). -/
def handleSubmit (st : ChatState) (now : Nat)
    (outcome : ChatFetchOutcome ChatBody) : ChatStep :=
  if jsTrim st.message = "" ∨ st.isLoading then
    { state := st, request := none }
  else
    let userMessage := jsTrim st.message
    let userMessageObj : CMessage :=
      { id := toString now, type := SpeakerType.user, content := userMessage
        timestamp := now, sources := none }
    let appended := st.messages ++ [userMessageObj]
    let base : ChatState :=
      { st with messages := appended, message := "", isLoading := true, error := none }
    let req : ChatRequest :=
      { message := userMessage, history := chatHistory st.messages }
    match outcome with
    | ChatFetchOutcome.reject msg =>
        { state := { base with error := some msg, isLoading := false }
          request := some req }
    | ChatFetchOutcome.response ok status body =>
        if jsTruthy body.error then
          { state := { base with error := some (envelopeMessage body), isLoading := false }
            request := some req }
        else if ok then
          { state :=
              { base with
                messages := appended ++
                  [{ id := toString (now + 1), type := SpeakerType.assistant
                     content := body.response, timestamp := now
                     sources := some (body.sources.getD []) }]
                sources := body.sources.getD []
                isLoading := false }
            request := some req }
        else
          { state := { base with
              error := some ("HTTP error! status: " ++ toString status)
              isLoading := false }
            request := some req }

/-! ## Chat transcript persistence (`localStorage`, key `chatHistory`) -/

/-- Content found under the `chatHistory` local-storage key: either a value
`JSON.parse` rejects (the load effect catches and logs) or a well-formed
serialized transcript. -/
inductive StoredChat where
  | malformed
  | wellFormed (messages : List CMessage)
  deriving DecidableEq, Repr

/-- Projection of the `Chat` component relevant to persistence: the
transcript and the value of the single `chatHistory` key (`none` when the
key is absent). -/
structure PersistState where
  messages : List CMessage
  storage : Option StoredChat
  deriving DecidableEq, Repr

/-- The fixed local-storage key used by the `Chat` component. -/
def chatHistoryKey : String := "chatHistory"

/-- Embedding of the mount effect: `localStorage.getItem('chatHistory')` is
read once; a present, parseable value replaces the transcript, a parse
failure is caught and leaves it untouched, an absent key does nothing. -/
def loadChatHistoryEffect (st : PersistState) : PersistState :=
  match st.storage with
  | none => st
  | some StoredChat.malformed => st
  | some (StoredChat.wellFormed msgs) => { st with messages := msgs }

/-- Embedding of the save effect that runs on every transcript change:
`localStorage.setItem` is called only when the transcript is non-empty
(`if (messages.length > 0)`); a change to an empty transcript leaves the
key untouched. -/
def saveChatHistoryEffect (st : PersistState) : PersistState :=
  if 0 < st.messages.length then
    { st with storage := some (StoredChat.wellFormed st.messages) }
  else st

/-- Embedding of `confirmClearHistory`: empty the transcript and remove the
`chatHistory` key (`localStorage.removeItem`). -/
def confirmClearHistory (_st : PersistState) : PersistState :=
  { messages := [], storage := none }

/-! ## Confessions panel (`Confessions.tsx`) -/

/-- One confession record, mirroring the `Confession` interface. -/
structure Confession where
  id : String
  message : String
  ipAddress : String
  reply : Option String
  replyCreatedAt : Option String
  isReplied : Bool
  createdAt : String
  deriving DecidableEq, Repr

/-- Summary statistics, mirroring the `Stats` interface. -/
structure ConfStats where
  total : Nat
  replied : Nat
  notReplied : Nat
  deriving DecidableEq, Repr

/-- State of the Confessions component relevant to the mutating actions. -/
structure ConfessionsState where
  confessions : List Confession
  stats : ConfStats
  selectedConfession : Option Confession
  replyText : String
  editedMessage : String
  isReplyDialogOpen : Bool
  isViewDialogOpen : Bool
  isEditDialogOpen : Bool
  isDeleteDialogOpen : Bool
  isDeleteReplyDialogOpen : Bool
  actionLoading : Bool
  deriving DecidableEq, Repr

/-- Outcome of one mutating REST call: failure covers both a rejected fetch
and a non-2xx status (the component throws on `!response.ok` and both land
in the same catch block). -/
inductive ApiOutcome where
  | failure (msg : String)
  | success
  deriving DecidableEq, Repr

/-- Externally visible effects of a Confessions handler. -/
inductive ConfEffect where
  | toastSuccess (msg : String)
  | toastError (msg : String)
  | refetchConfessions
  | refetchStats
  deriving DecidableEq, Repr

/-- Result of one Confessions handler invocation. -/
structure ConfStep where
  state : ConfessionsState
  effects : List ConfEffect
  deriving DecidableEq, Repr

/-- Embedding of `handleEdit`: guarded on a selected confession and a
non-blank edited message; on success it closes the edit dialog, clears the
draft, and refetches the list; on failure it only shows a toast (the
`finally` clause resets `actionLoading` either way). -/
def handleEdit (st : ConfessionsState) (outcome : ApiOutcome) : ConfStep :=
  match st.selectedConfession with
  | none => { state := st, effects := [] }
  | some _ =>
      if jsTrim st.editedMessage = "" then { state := st, effects := [] }
      else
        match outcome with
        | ApiOutcome.success =>
            { state := { st with
                isEditDialogOpen := false
                editedMessage := ""
                selectedConfession := none
                actionLoading := false }
              effects := [ConfEffect.toastSuccess "Confession updated successfully",
                ConfEffect.refetchConfessions] }
        | ApiOutcome.failure _ =>
            { state := { st with actionLoading := false }
              effects := [ConfEffect.toastError "Failed to update confession"] }

/-- Embedding of `handleReply`: guarded on a selected confession and a
non-blank reply; on success it closes the reply dialog, clears the draft,
and refetches the list and the statistics; on failure it only shows a
toast. -/
def handleReply (st : ConfessionsState) (outcome : ApiOutcome) : ConfStep :=
  match st.selectedConfession with
  | none => { state := st, effects := [] }
  | some _ =>
      if jsTrim st.replyText = "" then { state := st, effects := [] }
      else
        match outcome with
        | ApiOutcome.success =>
            { state := { st with
                isReplyDialogOpen := false
                replyText := ""
                selectedConfession := none
                actionLoading := false }
              effects := [ConfEffect.toastSuccess "Reply sent successfully",
                ConfEffect.refetchConfessions, ConfEffect.refetchStats] }
        | ApiOutcome.failure _ =>
            { state := { st with actionLoading := false }
              effects := [ConfEffect.toastError "Failed to send reply"] }

/-- Embedding of `handleDeleteReply`: guarded on a selected confession; on
success it closes the delete-reply and view dialogs and refetches the list
and the statistics; on failure it only shows a toast. -/
def handleDeleteReply (st : ConfessionsState) (outcome : ApiOutcome) : ConfStep :=
  match st.selectedConfession with
  | none => { state := st, effects := [] }
  | some _ =>
      match outcome with
      | ApiOutcome.success =>
          { state := { st with
              isDeleteReplyDialogOpen := false
              isViewDialogOpen := false
              selectedConfession := none
              actionLoading := false }
            effects := [ConfEffect.toastSuccess "Reply deleted successfully",
              ConfEffect.refetchConfessions, ConfEffect.refetchStats] }
      | ApiOutcome.failure _ =>
          { state := { st with actionLoading := false }
            effects := [ConfEffect.toastError "Failed to delete reply"] }

/-- Embedding of `handleDelete`: guarded on a selected confession; on success
it closes the delete dialog and refetches the list and the statistics; on
failure it only shows a toast. -/
def handleDelete (st : ConfessionsState) (outcome : ApiOutcome) : ConfStep :=
  match st.selectedConfession with
  | none => { state := st, effects := [] }
  | some _ =>
      match outcome with
      | ApiOutcome.success =>
          { state := { st with
              isDeleteDialogOpen := false
              selectedConfession := none
              actionLoading := false }
            effects := [ConfEffect.toastSuccess "Confession deleted successfully",
              ConfEffect.refetchConfessions, ConfEffect.refetchStats] }
      | ApiOutcome.failure _ =>
          { state := { st with actionLoading := false }
            effects := [ConfEffect.toastError "Failed to delete confession"] }

/-- Modelled from the spec: the backend behind `DELETE /confessions/{id}`
removes exactly the record with the given id from its stored list (the
persistence layer is external to this repository). -/
def backendDelete (backend : List Confession) (id : String) : List Confession :=
  backend.filter (fun c => c.id != id)

/-- Modelled from the spec: `GET /confessions/stats/summary` reports the
total, replied, and not-replied counts of the backend's stored list. -/
def backendStats (backend : List Confession) : ConfStats :=
  { total := backend.length
    replied := (backend.filter (fun c => c.isReplied)).length
    notReplied := (backend.filter (fun c => !c.isReplied)).length }

/-- Applying the `fetchConfessions` and `fetchStats` refetch pair against a
given backend list: the displayed list and statistics are replaced by what
the backend returns. -/
def applyRefetch (st : ConfessionsState) (backend : List Confession) :
    ConfessionsState :=
  { st with confessions := backend, stats := backendStats backend }

/-! ## JSON export of the test harness (`exportResults`) -/

/-- A JSON document, the image of `JSON.stringify`/`JSON.parse` for the
values the export produces (no `undefined`, no `NaN`). -/
inductive Json where
  | str (s : String)
  | num (q : ℚ)
  | jsonBool (b : Bool)
  | null
  | arr (elems : List Json)
  | obj (fields : List (String × Json))

/-- Field access on a parsed JSON object. -/
def Json.getField (j : Json) (k : String) : Option Json :=
  match j with
  | Json.obj fields => fields.lookup k
  | _ => none

/-- The display string of a test status, as serialized. -/
def statusString (s : TestStatus) : String :=
  match s with
  | TestStatus.success => "success"
  | TestStatus.error => "error"
  | TestStatus.pending => "pending"

/-- Serialization of one retrieval hit. -/
def encodeRetrievalResult (r : RetrievalResult) : Json :=
  Json.obj [("title", Json.str r.title), ("score", Json.num r.score),
    ("content_preview", Json.str r.content_preview)]

/-- Serialization of one entry of the exported `results` array: the
scenario id followed by the spread of the stored `TestResult` (the optional
`error` key is dropped by `JSON.stringify` when absent). -/
def encodeEntry (id : String) (r : TestResult) : Json :=
  Json.obj
    ([("scenario_id", Json.str id),
      ("query", Json.str r.query),
      ("results_count", Json.num r.results_count),
      ("results", Json.arr (r.results.map encodeRetrievalResult)),
      ("duration_seconds", Json.num r.duration_seconds),
      ("config", Json.obj [("limit", Json.num r.config.limit),
        ("min_similarity", Json.num r.config.min_similarity)]),
      ("status", Json.str (statusString r.status))] ++
      (match r.errorMsg with
       | some e => [("error", Json.str e)]
       | none => []) ++
      [("timestamp", Json.str r.timestamp)])

/-- The JSON document `exportResults` serializes: an ISO timestamp, the five
aggregate metrics exactly as derived for display, and one entry per binding
of the results map in insertion order. -/
def exportData (now : String) (results : ResultsMap) : Json :=
  Json.obj
    [("timestamp", Json.str now),
     ("metrics", Json.obj
       [("total_tests", Json.num (completedTests results).length),
        ("successful", Json.num (successfulTests results).length),
        ("failed", Json.num (failedTests results).length),
        ("avg_duration", Json.num (avgDuration results)),
        ("avg_score", Json.num (avgScore results))]),
     ("results", Json.arr (results.map (fun p => encodeEntry p.1 p.2)))]

/-- Embedding of `exportResults`: the produced document together with the
list of network requests the function issues — the body only formats and
downloads, so that list is empty. -/
def exportResults (now : String) (results : ResultsMap) :
    Json × List String :=
  (exportData now results, [])

/-- The entries of the `results` array of a parsed export document. -/
def exportedEntries (j : Json) : List Json :=
  match j.getField "results" with
  | some (Json.arr xs) => xs
  | _ => []

/-- The `scenario_id` field of a parsed entry. -/
def entryScenarioId (e : Json) : Option String :=
  match e.getField "scenario_id" with
  | some (Json.str s) => some s
  | _ => none

/-- The `results_count` field of a parsed entry. -/
def entryResultsCount (e : Json) : Option ℚ :=
  match e.getField "results_count" with
  | some (Json.num n) => some n
  | _ => none

/-- One numeric metric of the `metrics` object of a parsed export
document. -/
def exportedMetric (j : Json) (name : String) : Option ℚ :=
  match j.getField "metrics" with
  | some m =>
      match m.getField name with
      | some (Json.num q) => some q
      | _ => none
  | none => none

/-! ## Derived definitions used by the claims -/

/-- Arithmetic mean of a list of rationals, zero on the empty list — the
spec's notion of aggregate (the claim demands 0, not NaN, on an empty
population). -/
def arithMean (l : List ℚ) : ℚ :=
  if l = [] then 0 else l.sum / l.length

/-- The average top score as the claim words it: the mean of the first
hit's score over ALL completed (non-pending) results. -/
def avgScoreClaimed (results : ResultsMap) : ℚ :=
  arithMean ((completedTests results).map topScore)

/-- A successful sample result with a single hit of score 4/5, used to
separate the two candidate populations of the average top score. -/
def sampleSuccess : TestResult :=
  { query := "q1", results_count := 1
    results := [{ title := "d", score := 4 / 5, content_preview := "p" }]
    duration_seconds := 1
    config := { limit := 5, min_similarity := 25 / 100 }
    status := TestStatus.success, errorMsg := none, timestamp := "t" }

/-- A results map holding one successful and one failed test. -/
def sampleResults : ResultsMap :=
  [("a", sampleSuccess), ("b", errorTestResult "q2" "down" 1 "t")]

/-- Failing outcomes of a GroqChat send: a rejected fetch or a non-2xx
response (a 2xx body is consumed as success whatever it contains). -/
def groqFailureOutcome : ChatFetchOutcome GroqBody → Prop
  | ChatFetchOutcome.reject _ => True
  | ChatFetchOutcome.response ok _ _ => ok = false

/-- Failing outcomes of a Chat submit: a rejected fetch, an error envelope
in the body (checked first), or a non-2xx response. -/
def chatFailureOutcome : ChatFetchOutcome ChatBody → Prop
  | ChatFetchOutcome.reject _ => True
  | ChatFetchOutcome.response ok _ body => jsTruthy body.error = true ∨ ok = false

instance : LawfulBEq SpeakerType where
  eq_of_beq h := of_decide_eq_true h
  rfl := decide_eq_true rfl

/-- A history entry that pairs one user turn with one assistant turn. -/
def pairedEntry (e : HistoryEntry) : Prop :=
  e.user.isSome = true ∧ e.assistant.isSome = true

/-- A history entry carrying exactly one turn of a single role. -/
def singleTurnEntry (e : HistoryEntry) : Prop :=
  (e.user.isSome = true ∧ e.assistant = none) ∨
  (e.user = none ∧ e.assistant.isSome = true)

/-- A sample transcript message for the persistence scenarios. -/
def sampleCMessage : CMessage :=
  { id := "1", type := SpeakerType.user, content := "hello"
    timestamp := 0, sources := none }

/-- The view-relevant part of the Confessions state a failed action must
preserve: the list, the statistics, every dialog flag, and the absence of
any refetch effect. -/
def preservesView (st : ConfessionsState) (step : ConfStep) : Prop :=
  step.state.confessions = st.confessions ∧
  step.state.stats = st.stats ∧
  step.state.isReplyDialogOpen = st.isReplyDialogOpen ∧
  step.state.isViewDialogOpen = st.isViewDialogOpen ∧
  step.state.isEditDialogOpen = st.isEditDialogOpen ∧
  step.state.isDeleteDialogOpen = st.isDeleteDialogOpen ∧
  step.state.isDeleteReplyDialogOpen = st.isDeleteReplyDialogOpen ∧
  ∀ e ∈ step.effects,
    e ≠ ConfEffect.refetchConfessions ∧ e ≠ ConfEffect.refetchStats

/-- A sample confession used to instantiate the confession claims. -/
def sampleConfession : Confession :=
  { id := "c1", message := "m", ipAddress := "ip", reply := none
    replyCreatedAt := none, isReplied := false, createdAt := "d" }

/-- A sample Confessions state with the sample confession selected and its
delete dialog open. -/
def sampleConfState : ConfessionsState :=
  { confessions := [sampleConfession]
    stats := { total := 1, replied := 0, notReplied := 1 }
    selectedConfession := some sampleConfession
    replyText := "r", editedMessage := "e"
    isReplyDialogOpen := false, isViewDialogOpen := false
    isEditDialogOpen := false, isDeleteDialogOpen := true
    isDeleteReplyDialogOpen := false, actionLoading := true }

/-! ## Helper lemmas about the results map and the batch run -/

theorem anyKey_eq_false_iff (m : ResultsMap) (k : String) :
    m.any (fun p => decide (p.1 = k)) = false ↔ k ∉ m.map Prod.fst := by
  rw [← Bool.not_eq_true, List.any_eq_true]
  simp [List.mem_map]

theorem mapSet_keys_of_not_mem (m : ResultsMap) (k : String) (v : TestResult)
    (h : k ∉ m.map Prod.fst) :
    (mapSet m k v).map Prod.fst = m.map Prod.fst ++ [k] := by
  have hany : m.any (fun p => decide (p.1 = k)) = false :=
    (anyKey_eq_false_iff m k).mpr h
  simp [mapSet, hany]

theorem mapSet_keys_of_mem (m : ResultsMap) (k : String) (v : TestResult)
    (h : k ∈ m.map Prod.fst) :
    (mapSet m k v).map Prod.fst = m.map Prod.fst := by
  have hany : ¬ m.any (fun p => decide (p.1 = k)) = false := by
    rw [anyKey_eq_false_iff]; exact fun hc => hc h
  have hany' : m.any (fun p => decide (p.1 = k)) = true := by
    cases hb : m.any (fun p => decide (p.1 = k)) with
    | false => exact absurd hb hany
    | true => rfl
  unfold mapSet
  rw [if_pos hany', List.map_map]
  apply List.map_congr_left
  intro p _
  by_cases hp : p.1 = k
  · simp [hp]
  · simp [hp]

theorem mem_keys_mapSet (m : ResultsMap) (k : String) (v : TestResult)
    (k' : String) (h : k' ∈ m.map Prod.fst ∨ k' = k) :
    k' ∈ (mapSet m k v).map Prod.fst := by
  by_cases hk : k ∈ m.map Prod.fst
  · rw [mapSet_keys_of_mem m k v hk]
    rcases h with h | h
    · exact h
    · exact h ▸ hk
  · rw [mapSet_keys_of_not_mem m k v hk, List.mem_append]
    rcases h with h | h
    · exact Or.inl h
    · exact Or.inr (by simp [h])

theorem runAllFrom_trace_queries (oracle : Nat → RetrievalFetchOutcome)
    (elapsed : Nat → ℚ) (now : String) (total : Nat) :
    ∀ (scenarios : List TestScenario) (i : Nat) (acc : ResultsMap),
      ((runAllFrom oracle elapsed now total scenarios i acc).2).map RunStep.query
        = scenarios.map TestScenario.query := by
  intro scenarios
  induction scenarios with
  | nil => intro i acc; simp [runAllFrom]
  | cons s rest ih =>
      intro i acc
      simp [runAllFrom, ih]

theorem runAllFrom_trace_get (oracle : Nat → RetrievalFetchOutcome)
    (elapsed : Nat → ℚ) (now : String) (total : Nat) :
    ∀ (scenarios : List TestScenario) (j i : Nat) (acc : ResultsMap),
      j < scenarios.length →
      ∃ s, scenarios.get? j = some s ∧
        (runAllFrom oracle elapsed now total scenarios i acc).2.get? j =
          some { query := s.query
                 progress := (((i : ℚ) + j + 1) / total) * 100 } := by
  intro scenarios
  induction scenarios with
  | nil => intro j i acc hj; simp at hj
  | cons s rest ih =>
      intro j i acc hj
      cases j with
      | zero =>
          refine ⟨s, rfl, ?_⟩
          simp only [runAllFrom, List.get?]
          congr 2
          push_cast
          ring
      | succ j' =>
          have hj' : j' < rest.length := by
            simpa using Nat.lt_of_succ_lt_succ hj
          rcases ih j' (i + 1)
              (mapSet acc s.id (runSingleTest s.query (oracle i) (elapsed i) now)) hj' with
            ⟨t, ht, htrace⟩
          refine ⟨t, by simpa using ht, ?_⟩
          simp only [runAllFrom, List.get?]
          rw [htrace]
          congr 2
          push_cast
          ring

theorem runAllFrom_trace_length (oracle : Nat → RetrievalFetchOutcome)
    (elapsed : Nat → ℚ) (now : String) (total : Nat) :
    ∀ (scenarios : List TestScenario) (i : Nat) (acc : ResultsMap),
      ((runAllFrom oracle elapsed now total scenarios i acc).2).length
        = scenarios.length := by
  intro scenarios
  induction scenarios with
  | nil => intro i acc; simp [runAllFrom]
  | cons s rest ih => intro i acc; simp [runAllFrom, ih]

theorem runAllFrom_keys (oracle : Nat → RetrievalFetchOutcome)
    (elapsed : Nat → ℚ) (now : String) (total : Nat) :
    ∀ (scenarios : List TestScenario) (i : Nat) (acc : ResultsMap),
      (scenarios.map TestScenario.id).Nodup →
      (∀ s ∈ scenarios, s.id ∉ acc.map Prod.fst) →
      ((runAllFrom oracle elapsed now total scenarios i acc).1).map Prod.fst
        = acc.map Prod.fst ++ scenarios.map TestScenario.id := by
  intro scenarios
  induction scenarios with
  | nil => intro i acc _ _; simp [runAllFrom]
  | cons s rest ih =>
      intro i acc hnd hdisj
      have hs : s.id ∉ acc.map Prod.fst := hdisj s (List.mem_cons_self s rest)
      have hkeys := mapSet_keys_of_not_mem acc s.id
        (runSingleTest s.query (oracle i) (elapsed i) now) hs
      have hnd' : (rest.map TestScenario.id).Nodup := by
        simpa using hnd.of_cons
      have hdisj' : ∀ t ∈ rest,
          t.id ∉ (mapSet acc s.id
            (runSingleTest s.query (oracle i) (elapsed i) now)).map Prod.fst := by
        intro t ht
        rw [hkeys, List.mem_append]
        rintro (hmem | hmem)
        · exact hdisj t (List.mem_cons_of_mem s ht) hmem
        · have : t.id = s.id := by simpa using hmem
          have hne : s.id ∉ rest.map TestScenario.id := by
            simpa using (List.nodup_cons.mp hnd).1
          exact hne (this ▸ List.mem_map_of_mem TestScenario.id ht)
      simp only [runAllFrom]
      rw [ih (i + 1) _ hnd' hdisj', hkeys]
      simp

theorem runAllFrom_mem_keys (oracle : Nat → RetrievalFetchOutcome)
    (elapsed : Nat → ℚ) (now : String) (total : Nat) :
    ∀ (scenarios : List TestScenario) (i : Nat) (acc : ResultsMap) (k : String),
      (k ∈ acc.map Prod.fst ∨ ∃ s ∈ scenarios, s.id = k) →
      k ∈ ((runAllFrom oracle elapsed now total scenarios i acc).1).map Prod.fst := by
  intro scenarios
  induction scenarios with
  | nil =>
      intro i acc k h
      rcases h with h | h
      · simpa [runAllFrom] using h
      · simp at h
  | cons s rest ih =>
      intro i acc k h
      simp only [runAllFrom]
      apply ih
      rcases h with h | h
      · exact Or.inl (mem_keys_mapSet _ _ _ _ (Or.inl h))
      · rcases h with ⟨t, ht, htk⟩
        rcases List.mem_cons.mp ht with rfl | ht'
        · exact Or.inl (mem_keys_mapSet _ _ _ _ (Or.inr htk.symm))
        · exact Or.inr ⟨t, ht', htk⟩

/-! ## Claims about the batch run (C1, C10) -/

/-- C1, counterexample to the claim as stated: the results map is keyed by
scenario id, so a scenario list of length 2 whose two entries share an id
ends the run with a single entry in the map, not 2. -/
theorem runAll_duplicate_id_counterexample :
    ((handleRunAll
        [{ id := "a", query := "q1", expectedMatch := none },
         { id := "a", query := "q2", expectedMatch := none }]
        (fun _ => RetrievalFetchOutcome.reject "down")
        (fun _ => 1) "t").1).length ≠ 2 := by
  decide

/-- C1 (amended: the scenario ids must additionally be pairwise distinct;
with a duplicated id `Map.set` overwrites the earlier entry): for every
non-empty scenario list with distinct ids, "run all" issues exactly one
retrieval request per scenario in scenario-list order (the oracle is indexed
by completion position, so each request is answered before the next is
issued), the final results map holds exactly N entries keyed by the scenario
ids in order, and the progress value recorded after the j-th scenario equals
((j+1)/N)*100 and equals 100 exactly when the N-th scenario has completed. -/
theorem runAll_sequential_complete (scenarios : List TestScenario)
    (oracle : Nat → RetrievalFetchOutcome) (elapsed : Nat → ℚ) (now : String)
    (hne : scenarios ≠ [])
    (hnd : (scenarios.map TestScenario.id).Nodup) :
    ((handleRunAll scenarios oracle elapsed now).2).map RunStep.query
        = scenarios.map TestScenario.query ∧
    ((handleRunAll scenarios oracle elapsed now).1).map Prod.fst
        = scenarios.map TestScenario.id ∧
    ((handleRunAll scenarios oracle elapsed now).1).length = scenarios.length ∧
    (∀ j, j < scenarios.length →
      ∃ step, (handleRunAll scenarios oracle elapsed now).2.get? j = some step ∧
        step.progress = (((j : ℚ) + 1) / scenarios.length) * 100 ∧
        (step.progress = 100 ↔ j + 1 = scenarios.length)) := by
  have hkeys : ((handleRunAll scenarios oracle elapsed now).1).map Prod.fst
      = scenarios.map TestScenario.id := by
    simpa [handleRunAll] using
      runAllFrom_keys oracle elapsed now scenarios.length scenarios 0 []
        hnd (by simp)
  have hlenpos : 0 < scenarios.length := List.length_pos.mpr hne
  have hNq : (scenarios.length : ℚ) ≠ 0 := by
    exact_mod_cast Nat.pos_iff_ne_zero.mp hlenpos
  refine ⟨?_, hkeys, ?_, ?_⟩
  · simpa [handleRunAll] using
      runAllFrom_trace_queries oracle elapsed now scenarios.length scenarios 0 []
  · have := congrArg List.length hkeys
    simpa [List.length_map] using this
  · intro j hj
    rcases runAllFrom_trace_get oracle elapsed now scenarios.length scenarios j 0 [] hj
      with ⟨s, _, htrace⟩
    refine ⟨_, by simpa [handleRunAll] using htrace, ?_, ?_⟩
    · push_cast
      ring
    · have hcanon : (((j : ℚ) + 1) / scenarios.length) * 100 = 100
          ↔ ((j : ℚ) + 1) = scenarios.length := by
        rw [div_mul_eq_mul_div, div_eq_iff hNq]
        constructor
        · intro h; linarith
        · intro h; rw [← h]; ring
      show (((j : ℚ) + 1) / scenarios.length) * 100 = 100 ↔ j + 1 = scenarios.length
      rw [hcanon]
      constructor
      · intro h; exact_mod_cast h
      · intro h; exact_mod_cast congrArg (Nat.cast : Nat → ℚ) h

/-- C1, witness: running the amended theorem on two concrete scenarios with
distinct ids yields a final map of exactly two entries. -/
theorem runAll_sequential_complete_witness :
    ((handleRunAll
        [{ id := "1", query := "q1", expectedMatch := none },
         { id := "2", query := "q2", expectedMatch := none }]
        (fun _ => RetrievalFetchOutcome.reject "down")
        (fun _ => 1) "t").1).length = 2 :=
  (runAll_sequential_complete
      [{ id := "1", query := "q1", expectedMatch := none },
       { id := "2", query := "q2", expectedMatch := none }]
      (fun _ => RetrievalFetchOutcome.reject "down")
      (fun _ => 1) "t" (by decide) (by decide)).2.2.1

/-- C10: `runSingleTest` is total — every failure (rejected fetch, non-2xx
status, JSON parse error) lands in the catch block and yields a result with
status `'error'`, zero count, an empty hit list, the client-measured
duration, and the default config `{limit: 5, min_similarity: 0.25}`;
consequently "run all" records one trace step per scenario and every
scenario's id is a key of the final results map, whatever the oracle
answers. -/
theorem runSingleTest_total_runAll_complete
    (query : String) (outcome : RetrievalFetchOutcome) (elapsed : ℚ)
    (now : String) (scenarios : List TestScenario)
    (oracle : Nat → RetrievalFetchOutcome) (elapsedAt : Nat → ℚ) :
    ((runSingleTest query outcome elapsed now).status = TestStatus.error →
      (runSingleTest query outcome elapsed now).results_count = 0 ∧
      (runSingleTest query outcome elapsed now).results = [] ∧
      (runSingleTest query outcome elapsed now).duration_seconds = elapsed ∧
      (runSingleTest query outcome elapsed now).config
        = { limit := 5, min_similarity := 25 / 100 }) ∧
    ((handleRunAll scenarios oracle elapsedAt now).2).length = scenarios.length ∧
    ∀ s ∈ scenarios,
      s.id ∈ ((handleRunAll scenarios oracle elapsedAt now).1).map Prod.fst := by
  refine ⟨?_, ?_, ?_⟩
  · intro hstatus
    cases outcome with
    | ok data => simp [runSingleTest] at hstatus
    | reject m => exact ⟨rfl, rfl, rfl, rfl⟩
    | httpError s => exact ⟨rfl, rfl, rfl, rfl⟩
    | parseError m => exact ⟨rfl, rfl, rfl, rfl⟩
  · simpa [handleRunAll] using
      runAllFrom_trace_length oracle elapsedAt now scenarios.length scenarios 0 []
  · intro s hs
    simpa [handleRunAll] using
      runAllFrom_mem_keys oracle elapsedAt now scenarios.length scenarios 0 []
        s.id (Or.inr ⟨s, hs, rfl⟩)

/-- C10, witness: a concrete rejected fetch produces the documented error
shape. -/
theorem runSingleTest_total_runAll_complete_witness :
    (runSingleTest "q" (RetrievalFetchOutcome.reject "down") 1 "t").results_count = 0 ∧
    (runSingleTest "q" (RetrievalFetchOutcome.reject "down") 1 "t").results = [] ∧
    (runSingleTest "q" (RetrievalFetchOutcome.reject "down") 1 "t").duration_seconds = 1 ∧
    (runSingleTest "q" (RetrievalFetchOutcome.reject "down") 1 "t").config
      = { limit := 5, min_similarity := 25 / 100 } :=
  (runSingleTest_total_runAll_complete "q" (RetrievalFetchOutcome.reject "down")
    1 "t" [] (fun _ => RetrievalFetchOutcome.reject "down") (fun _ => 1)).1 rfl

/-! ## Claims about the displayed aggregates (C2) and the export (C5) -/

/-- C2, counterexample to the claim as stated: with one successful result
(top score 4/5) and one completed error result (no hits), the displayed
average top score is 4/5 (mean over successful tests only), while the mean
over all completed results the claim describes is 2/5. -/
theorem avgScore_population_counterexample :
    avgScore sampleResults ≠ avgScoreClaimed sampleResults := by
  have hs : successfulTests sampleResults = [sampleSuccess] := rfl
  have hc : completedTests sampleResults
      = [sampleSuccess, errorTestResult "q2" "down" 1 "t"] := rfl
  have h1 : avgScore sampleResults = 4 / 5 := by
    show (if 0 < (successfulTests sampleResults).length then
        ((successfulTests sampleResults).map topScore).sum
          / (successfulTests sampleResults).length else 0) = 4 / 5
    rw [hs]
    norm_num [topScore, sampleSuccess]
  have h2 : avgScoreClaimed sampleResults = 2 / 5 := by
    unfold avgScoreClaimed
    rw [hc]
    rw [show ([sampleSuccess, errorTestResult "q2" "down" 1 "t"].map topScore)
        = [4 / 5, 0] from rfl]
    unfold arithMean
    rw [if_neg (by simp)]
    norm_num [List.sum_cons]
  rw [h1, h2]
  norm_num

/-- C2 (amended: the displayed average top score is the mean of the first
hit's score over the SUCCESSFUL tests — status `'success'` with a positive
result count — not over all completed tests; the displayed average duration
is the mean of `duration_seconds` over all completed tests; both aggregates
are 0, not NaN, on an empty population). -/
theorem aggregates_arithmetic_mean (results : ResultsMap) :
    avgDuration results
        = arithMean ((completedTests results).map (fun r => r.duration_seconds)) ∧
    avgScore results = arithMean ((successfulTests results).map topScore) ∧
    arithMean [] = 0 := by
  refine ⟨?_, ?_, by simp [arithMean]⟩
  · show (if 0 < (completedTests results).length then
        ((completedTests results).map (fun r => r.duration_seconds)).sum
          / (completedTests results).length else 0)
      = arithMean ((completedTests results).map (fun r => r.duration_seconds))
    unfold arithMean
    by_cases hc : completedTests results = []
    · simp [hc]
    · have hpos : 0 < (completedTests results).length := List.length_pos.mpr hc
      have hne : (completedTests results).map (fun r => r.duration_seconds) ≠ [] := by
        simpa [List.map_eq_nil_iff] using hc
      rw [if_pos hpos, if_neg hne, List.length_map]
  · show (if 0 < (successfulTests results).length then
        ((successfulTests results).map topScore).sum
          / (successfulTests results).length else 0)
      = arithMean ((successfulTests results).map topScore)
    unfold arithMean
    by_cases hs : successfulTests results = []
    · simp [hs]
    · have hpos : 0 < (successfulTests results).length := List.length_pos.mpr hs
      have hne : (successfulTests results).map topScore ≠ [] := by
        simpa [List.map_eq_nil_iff] using hs
      rw [if_pos hpos, if_neg hne, List.length_map]

/-- C5: exporting performs no network request, and reading the exported
document back reproduces the scenario ids of the results map in order, each
entry's result count, and the five aggregate metrics exactly as derived for
display at export time. -/
theorem export_roundtrip (now : String) (results : ResultsMap) :
    (exportResults now results).2 = [] ∧
    (exportedEntries (exportResults now results).1).map entryScenarioId
        = results.map (fun p => some p.1) ∧
    (exportedEntries (exportResults now results).1).map entryResultsCount
        = results.map (fun p => some (p.2.results_count : ℚ)) ∧
    exportedMetric (exportResults now results).1 "total_tests"
        = some ((completedTests results).length : ℚ) ∧
    exportedMetric (exportResults now results).1 "successful"
        = some ((successfulTests results).length : ℚ) ∧
    exportedMetric (exportResults now results).1 "failed"
        = some ((failedTests results).length : ℚ) ∧
    exportedMetric (exportResults now results).1 "avg_duration"
        = some (avgDuration results) ∧
    exportedMetric (exportResults now results).1 "avg_score"
        = some (avgScore results) := by
  refine ⟨rfl, ?_, ?_, rfl, rfl, rfl, rfl, rfl⟩
  · show (results.map (fun p => encodeEntry p.1 p.2)).map entryScenarioId
        = results.map (fun p => some p.1)
    rw [List.map_map]
    rfl
  · show (results.map (fun p => encodeEntry p.1 p.2)).map entryResultsCount
        = results.map (fun p => some (p.2.results_count : ℚ))
    rw [List.map_map]
    rfl

/-! ## Claims about the chat clients (C4, C3, C8) -/

/-- C4: a chat submit whose input is empty or whitespace-only (it trims to
the empty string), or issued while a prior request is still in flight, is a
no-op in both implementations: the component state — the transcript
included — is unchanged and no network request is issued. -/
theorem chat_submit_guard_noop (gst : GroqState) (cst : ChatState) (now : Nat)
    (o1 : ChatFetchOutcome GroqBody) (o2 : ChatFetchOutcome ChatBody)
    (hg : jsTrim gst.input = "" ∨ gst.isLoading)
    (hc : jsTrim cst.message = "" ∨ cst.isLoading) :
    sendMessage gst now o1
        = { state := gst, request := none, toastError := none } ∧
    handleSubmit cst now o2 = { state := cst, request := none } := by
  constructor
  · unfold sendMessage
    rw [if_pos hg]
  · unfold handleSubmit
    rw [if_pos hc]

/-- C4, witness: a whitespace-only GroqChat input and an in-flight Chat
submit are both no-ops. -/
theorem chat_submit_guard_noop_witness :
    sendMessage { messages := [], input := "  ", isLoading := false } 0
        (ChatFetchOutcome.reject "x")
      = { state := { messages := [], input := "  ", isLoading := false }
          request := none, toastError := none } ∧
    handleSubmit { message := "hi", messages := [], isLoading := true,
                   error := none, sources := [] } 0 (ChatFetchOutcome.reject "x")
      = { state := { message := "hi", messages := [], isLoading := true,
                       error := none, sources := [] }
          request := none } :=
  chat_submit_guard_noop
    { messages := [], input := "  ", isLoading := false }
    { message := "hi", messages := [], isLoading := true,
      error := none, sources := [] }
    0 (ChatFetchOutcome.reject "x") (ChatFetchOutcome.reject "x")
    (Or.inl (by decide)) (Or.inr rfl)

/-- C3, counterexample to the claim as stated: on a rejected fetch the Chat
implementation KEEPS the just-added user message (transcript grows from 0
to 1 messages), while the GroqChat implementation REMOVES it (transcript
returns to 0 messages) — the opposite of the claimed assignment of the two
behaviours. -/
theorem chat_rollback_swapped_counterexample :
    ((handleSubmit { message := "hi", messages := [], isLoading := false,
                     error := none, sources := [] } 0
        (ChatFetchOutcome.reject "boom")).state.messages).length = 1 ∧
    ((sendMessage { messages := [], input := "hi", isLoading := false } 0
        (ChatFetchOutcome.reject "boom")).state.messages).length = 0 := by
  decide

/-- C3 (amended: the two implementations behave the other way around from
the claim — GroqChat surfaces the failure as a toast and rolls back by
removing the just-added user message, while Chat keeps the just-added user
message and only records the error text; moreover an error envelope in a
2xx body counts as a failure only for Chat): for every guard-passing submit
and failing outcome, GroqChat's transcript is restored to its pre-submit
value with an error toast emitted, and Chat's transcript is the pre-submit
value extended by the submitted user message with the error state set. -/
theorem chat_failure_handling (gst : GroqState) (cst : ChatState) (now : Nat)
    (o1 : ChatFetchOutcome GroqBody) (o2 : ChatFetchOutcome ChatBody)
    (hg : ¬ (jsTrim gst.input = "" ∨ gst.isLoading))
    (hc : ¬ (jsTrim cst.message = "" ∨ cst.isLoading))
    (h1 : groqFailureOutcome o1) (h2 : chatFailureOutcome o2) :
    (sendMessage gst now o1).state.messages = gst.messages ∧
    ((sendMessage gst now o1).toastError).isSome = true ∧
    (handleSubmit cst now o2).state.messages
        = cst.messages ++
          [{ id := toString now, type := SpeakerType.user
             content := jsTrim cst.message, timestamp := now, sources := none }] ∧
    ((handleSubmit cst now o2).state.error).isSome = true := by
  refine ⟨?_, ?_, ?_, ?_⟩
  · cases o1 with
    | reject m => simp [sendMessage, hg]
    | response ok s b =>
        have hok : ok = false := h1
        subst hok
        simp [sendMessage, hg]
  · cases o1 with
    | reject m => simp [sendMessage, hg]
    | response ok s b =>
        have hok : ok = false := h1
        subst hok
        simp [sendMessage, hg]
  · cases o2 with
    | reject m => simp [handleSubmit, hc]
    | response ok s b =>
        by_cases he : jsTruthy b.error = true
        · simp [handleSubmit, hc, he]
        · have hok : ok = false := by
            rcases h2 with h | h
            · exact absurd h he
            · exact h
          subst hok
          simp [handleSubmit, hc, he]
  · cases o2 with
    | reject m => simp [handleSubmit, hc]
    | response ok s b =>
        by_cases he : jsTruthy b.error = true
        · simp [handleSubmit, hc, he]
        · have hok : ok = false := by
            rcases h2 with h | h
            · exact absurd h he
            · exact h
          subst hok
          simp [handleSubmit, hc, he]

/-- C3, witness: on a concrete rejected fetch, GroqChat's transcript is
restored to empty and Chat records an error. -/
theorem chat_failure_handling_witness :
    (sendMessage { messages := [], input := "hi", isLoading := false } 0
        (ChatFetchOutcome.reject "boom")).state.messages = [] ∧
    ((handleSubmit { message := "hi", messages := [], isLoading := false,
                     error := none, sources := [] } 0
        (ChatFetchOutcome.reject "boom")).state.error).isSome = true :=
  ⟨(chat_failure_handling
      { messages := [], input := "hi", isLoading := false }
      { message := "hi", messages := [], isLoading := false,
        error := none, sources := [] }
      0 (ChatFetchOutcome.reject "boom") (ChatFetchOutcome.reject "boom")
      (by decide) (by decide) trivial trivial).1,
   (chat_failure_handling
      { messages := [], input := "hi", isLoading := false }
      { message := "hi", messages := [], isLoading := false,
        error := none, sources := [] }
      0 (ChatFetchOutcome.reject "boom") (ChatFetchOutcome.reject "boom")
      (by decide) (by decide) trivial trivial).2.2.2⟩

/-- Every entry the `Chat` client serializes pairs a user turn at an even
offset of the prior transcript with the assistant turn right after it. -/
theorem chatHistory_pairs :
    ∀ (msgs : List CMessage), ∀ e ∈ chatHistory msgs,
      ∃ i u a, i % 2 = 0 ∧ msgs.get? i = some u ∧ msgs.get? (i + 1) = some a ∧
        u.type = SpeakerType.user ∧ a.type = SpeakerType.assistant ∧
        e = { user := some u.content, assistant := some a.content }
  | [] => by simp [chatHistory]
  | [u] => by simp [chatHistory]
  | u :: a :: rest => by
      intro e he
      rw [show chatHistory (u :: a :: rest)
          = (if u.type == SpeakerType.user && a.type == SpeakerType.assistant then
              [{ user := some u.content, assistant := some a.content }]
            else []) ++ chatHistory rest from rfl] at he
      rcases List.mem_append.mp he with h1 | h2
      · by_cases hcond :
            (u.type == SpeakerType.user && a.type == SpeakerType.assistant) = true
        · rw [if_pos hcond] at h1
          have hpair := (Bool.and_eq_true _ _).mp hcond
          have heq : e = { user := some u.content, assistant := some a.content } := by
            simpa using h1
          exact ⟨0, u, a, rfl, rfl, rfl, eq_of_beq hpair.1, eq_of_beq hpair.2, heq⟩
        · rw [if_neg hcond] at h1
          simp at h1
      · rcases chatHistory_pairs rest e h2 with ⟨i, u', a', hmod, hg1, hg2, ht1, ht2, heq⟩
        exact ⟨i + 2, u', a', by omega, hg1, hg2, ht1, ht2, heq⟩

/-- C8, counterexample to the claim as stated: a GroqChat submit with one
prior user turn sends a history whose single item is the one-sided object
`{user: "a"}` — not a pairing of a user turn with a following assistant
turn. -/
theorem groq_history_single_turn_counterexample :
    (sendMessage { messages := [{ role := SpeakerType.user, content := "a",
                                  sources := none, duration := none,
                                  apiDuration := none, timestamp := 0 }],
                   input := "b", isLoading := false } 1
        (ChatFetchOutcome.reject "x")).request
      = some { message := "b",
               history := [{ user := some "a", assistant := none }] } ∧
    ¬ pairedEntry { user := some "a", assistant := none } := by
  constructor
  · decide
  · simp [pairedEntry]

/-- C8 (amended: only the `Chat` client serializes the prior transcript as
user/assistant pairs — one item per adjacent user-then-assistant couple at
an even offset; the GroqChat client serializes each prior message as a
single-turn one-sided item in order; both exclude the message being
submitted, and neither applies any length bound beyond the transcript
itself): the request bodies are exactly these serializations of the
pre-submit transcript. -/
theorem chat_history_construction (gst : GroqState) (cst : ChatState)
    (now : Nat) (o1 : ChatFetchOutcome GroqBody) (o2 : ChatFetchOutcome ChatBody)
    (hg : ¬ (jsTrim gst.input = "" ∨ gst.isLoading))
    (hc : ¬ (jsTrim cst.message = "" ∨ cst.isLoading)) :
    (sendMessage gst now o1).request
        = some { message := jsTrim gst.input,
                 history := gst.messages.map groqHistoryItem } ∧
    (∀ m : GMessage, singleTurnEntry (groqHistoryItem m)) ∧
    (handleSubmit cst now o2).request
        = some { message := jsTrim cst.message,
                 history := chatHistory cst.messages } ∧
    (∀ e ∈ chatHistory cst.messages, pairedEntry e ∧
      ∃ i u a, i % 2 = 0 ∧ cst.messages.get? i = some u ∧
        cst.messages.get? (i + 1) = some a ∧
        u.type = SpeakerType.user ∧ a.type = SpeakerType.assistant ∧
        e = { user := some u.content, assistant := some a.content }) := by
  refine ⟨?_, ?_, ?_, ?_⟩
  · cases o1 with
    | reject m => simp [sendMessage, hg]
    | response ok s b => cases ok <;> simp [sendMessage, hg]
  · intro m
    cases hm : m.role <;> simp [groqHistoryItem, singleTurnEntry, hm]
  · cases o2 with
    | reject m => simp [handleSubmit, hc]
    | response ok s b =>
        by_cases he : jsTruthy b.error = true
        · simp [handleSubmit, hc, he]
        · cases ok <;> simp [handleSubmit, hc, he]
  · intro e he
    rcases chatHistory_pairs cst.messages e he with ⟨i, u, a, hmod, h1, h2, h3, h4, h5⟩
    refine ⟨?_, i, u, a, hmod, h1, h2, h3, h4, h5⟩
    rw [h5]
    simp [pairedEntry]

/-- C8, witness: a Chat submit on an empty prior transcript sends the empty
pair list as history together with the trimmed message. -/
theorem chat_history_construction_witness :
    (handleSubmit { message := "hi", messages := [], isLoading := false,
                    error := none, sources := [] } 0
        (ChatFetchOutcome.reject "x")).request
      = some { message := jsTrim "hi", history := chatHistory [] } :=
  (chat_history_construction
      { messages := [], input := "hi", isLoading := false }
      { message := "hi", messages := [], isLoading := false,
        error := none, sources := [] }
      0 (ChatFetchOutcome.reject "x") (ChatFetchOutcome.reject "x")
      (by decide) (by decide)).2.2.1

/-- C9, counterexample to the claim as stated: clearing the chat is a
transcript change (to the empty transcript), yet the save effect that runs
on it does not write the key — the `messages.length > 0` guard skips the
write, so afterwards the key is absent rather than holding the
serialization of the (empty) transcript. -/
theorem save_effect_skips_empty_counterexample :
    (saveChatHistoryEffect (confirmClearHistory
        { messages := [sampleCMessage],
          storage := some (StoredChat.wellFormed [sampleCMessage]) })).messages
      = [] ∧
    (saveChatHistoryEffect (confirmClearHistory
        { messages := [sampleCMessage],
          storage := some (StoredChat.wellFormed [sampleCMessage]) })).storage
      ≠ some (StoredChat.wellFormed []) := by
  constructor
  · rfl
  · decide

/-- C9 (amended: the key is written on every transcript change to a
NON-EMPTY transcript; a change to the empty transcript leaves the key
untouched — the only such change is clear-chat, which itself removes the
key, and the save effect running after it does not re-create it): the mount
effect restores the transcript from a well-formed stored value and leaves
it untouched otherwise, the save effect writes the serialized transcript
exactly when it is non-empty, and clear-chat empties the transcript and
removes the key. -/
theorem chat_persistence_sync (st : PersistState) (msgs : List CMessage) :
    (st.storage = some (StoredChat.wellFormed msgs) →
      loadChatHistoryEffect st = { st with messages := msgs }) ∧
    (st.storage = none → loadChatHistoryEffect st = st) ∧
    (st.storage = some StoredChat.malformed → loadChatHistoryEffect st = st) ∧
    (st.messages ≠ [] →
      saveChatHistoryEffect st
        = { st with storage := some (StoredChat.wellFormed st.messages) }) ∧
    (st.messages = [] → saveChatHistoryEffect st = st) ∧
    confirmClearHistory st = { messages := [], storage := none } ∧
    saveChatHistoryEffect (confirmClearHistory st)
      = { messages := [], storage := none } := by
  refine ⟨?_, ?_, ?_, ?_, ?_, rfl, rfl⟩
  · intro h; simp [loadChatHistoryEffect, h]
  · intro h; simp [loadChatHistoryEffect, h]
  · intro h; simp [loadChatHistoryEffect, h]
  · intro h
    have hpos : 0 < st.messages.length := List.length_pos.mpr h
    simp [saveChatHistoryEffect, hpos]
  · intro h; simp [saveChatHistoryEffect, h]

/-- C9, witness: mounting over a stored one-message transcript restores that
transcript. -/
theorem chat_persistence_sync_witness :
    loadChatHistoryEffect
        { messages := [],
          storage := some (StoredChat.wellFormed [sampleCMessage]) }
      = { messages := [sampleCMessage],
          storage := some (StoredChat.wellFormed [sampleCMessage]) } :=
  (chat_persistence_sync
      { messages := [],
        storage := some (StoredChat.wellFormed [sampleCMessage]) }
      [sampleCMessage]).1 rfl

/-! ## Claims about the confessions panel (C6, C7) -/

/-- C6: when the backend call of any mutating confession action (edit,
reply, delete reply, delete) fails, the confession list and the statistics
are unmodified, every dialog flag keeps its value (the action's dialog
stays open), and no refetch of the list or of the statistics is
triggered. -/
theorem confession_failure_preserves_state (st : ConfessionsState)
    (msg : String) :
    preservesView st (handleEdit st (ApiOutcome.failure msg)) ∧
    preservesView st (handleReply st (ApiOutcome.failure msg)) ∧
    preservesView st (handleDeleteReply st (ApiOutcome.failure msg)) ∧
    preservesView st (handleDelete st (ApiOutcome.failure msg)) := by
  refine ⟨?_, ?_, ?_, ?_⟩
  · cases hsel : st.selectedConfession with
    | none => simp [handleEdit, hsel, preservesView]
    | some c =>
        by_cases ht : jsTrim st.editedMessage = ""
        · simp [handleEdit, hsel, ht, preservesView]
        · simp [handleEdit, hsel, ht, preservesView]
  · cases hsel : st.selectedConfession with
    | none => simp [handleReply, hsel, preservesView]
    | some c =>
        by_cases ht : jsTrim st.replyText = ""
        · simp [handleReply, hsel, ht, preservesView]
        · simp [handleReply, hsel, ht, preservesView]
  · cases hsel : st.selectedConfession with
    | none => simp [handleDeleteReply, hsel, preservesView]
    | some c => simp [handleDeleteReply, hsel, preservesView]
  · cases hsel : st.selectedConfession with
    | none => simp [handleDelete, hsel, preservesView]
    | some c => simp [handleDelete, hsel, preservesView]

/-- C6, witness: a failed delete on the sample state leaves the list and
the open delete dialog untouched. -/
theorem confession_failure_preserves_state_witness :
    (handleDelete sampleConfState (ApiOutcome.failure "boom")).state.confessions
        = sampleConfState.confessions ∧
    (handleDelete sampleConfState
        (ApiOutcome.failure "boom")).state.isDeleteDialogOpen
        = sampleConfState.isDeleteDialogOpen :=
  ⟨(confession_failure_preserves_state sampleConfState "boom").2.2.2.1,
   (confession_failure_preserves_state sampleConfState "boom").2.2.2.2.2.2.2.2.1⟩

/-- A list of confessions loses exactly the one record carrying a given
member's id when that id occurs only once. -/
theorem filter_ne_id_length (l : List Confession) (c : Confession)
    (hmem : c ∈ l) (hnd : (l.map Confession.id).Nodup) :
    (l.filter (fun x => x.id != c.id)).length + 1 = l.length := by
  induction l with
  | nil => simp at hmem
  | cons x xs ih =>
      rw [List.map_cons, List.nodup_cons] at hnd
      have hhead : x.id ∉ xs.map Confession.id := hnd.1
      have hnd' : (xs.map Confession.id).Nodup := hnd.2
      rcases List.mem_cons.mp hmem with rfl | hxs
      · have hfix : xs.filter (fun y => y.id != c.id) = xs := by
          apply List.filter_eq_self.mpr
          intro y hy
          have : y.id ≠ c.id := by
            intro hcontra
            exact hhead (hcontra ▸ List.mem_map_of_mem Confession.id hy)
          simpa using this
        simp [List.filter_cons, hfix]
      · have hne : x.id ≠ c.id := by
          intro h
          exact hhead (h ▸ List.mem_map_of_mem Confession.id hxs)
        have := ih hxs hnd'
        simp [List.filter_cons, hne]
        omega

/-- C7: deleting a selected confession succeeds, the handler closes the
delete dialog and triggers a refetch of the list and the statistics, and —
with the backend modelled per the claim as removing exactly the record with
that id — after the refetch the confession no longer appears in the
displayed list and the displayed total is exactly one less than before
(hypotheses: the confession is displayed, the displayed list carries
pairwise-distinct ids as the backend guarantees, and the displayed total
equals the displayed list's length as produced by the previous stats
fetch). -/
theorem confession_delete_refetch (st : ConfessionsState) (c : Confession)
    (hsel : st.selectedConfession = some c)
    (hmem : c ∈ st.confessions)
    (hnd : (st.confessions.map Confession.id).Nodup)
    (htotal : st.stats.total = st.confessions.length) :
    c ∉ (applyRefetch (handleDelete st ApiOutcome.success).state
        (backendDelete st.confessions c.id)).confessions ∧
    (applyRefetch (handleDelete st ApiOutcome.success).state
        (backendDelete st.confessions c.id)).stats.total + 1 = st.stats.total ∧
    (handleDelete st ApiOutcome.success).state.isDeleteDialogOpen = false ∧
    (handleDelete st ApiOutcome.success).effects
      = [ConfEffect.toastSuccess "Confession deleted successfully",
         ConfEffect.refetchConfessions, ConfEffect.refetchStats] := by
  refine ⟨?_, ?_, ?_, ?_⟩
  · intro hmem'
    have hmem2 : c ∈ st.confessions.filter (fun x => x.id != c.id) := by
      simp only [applyRefetch, backendDelete] at hmem'
      exact hmem'
    have hfalse := (List.mem_filter.mp hmem2).2
    simp at hfalse
  · have hlen := filter_ne_id_length st.confessions c hmem hnd
    have hstats : (applyRefetch (handleDelete st ApiOutcome.success).state
        (backendDelete st.confessions c.id)).stats.total
        = (st.confessions.filter (fun x => x.id != c.id)).length := by
      simp [applyRefetch, backendStats, backendDelete]
    rw [hstats, htotal]
    exact hlen
  · simp [handleDelete, hsel]
  · simp [handleDelete, hsel]

/-- C7, witness: deleting the sample confession from the sample state
removes it from the refetched list. -/
theorem confession_delete_refetch_witness :
    sampleConfession ∉ (applyRefetch
        (handleDelete sampleConfState ApiOutcome.success).state
        (backendDelete sampleConfState.confessions
          sampleConfession.id)).confessions :=
  (confession_delete_refetch sampleConfState sampleConfession rfl
    (by simp [sampleConfState]) (by simp [sampleConfState]) rfl).1

end AdminSpec
